import Mathlib

/-!
Verification of the door-monitor state-tracking and notification engine.

The definitions below are a shallow embedding of the Rust sources:
`src/monitor.rs` (MonitorState, DoorMonitor::run, handle_door_status,
handle_door_state_change, handle_door_open_too_long, handle_sms_with_backoff,
handle_single_sms), `src/config.rs` (Args, Args::sms_backoff) and
`src/utils.rs` (format_duration).  Time is modelled as a natural number of
seconds (the Rust code uses monotone `Instant`s and `Duration::as_secs`);
elapsed times are natural subtraction `now - then`.  The messages the Rust
code formats and hands to the SMS/Telegram senders are modelled as structured
`Event` values; dispatching an event to the enabled channels is a separate
layer (`dispatch_event`, `runD`), exactly mirroring that in the Rust code the
message construction and the state mutations are unconditional while only the
`send_sms`/`send_telegram` calls are gated by `sms_off`/`telegram_off`.
-/

namespace DoorMon

/-- Configuration fields of `config.rs::Args` that the engine consumes.
`open_too_long_seconds` defaults to 15 in the CLI, `sms_off`, `telegram_off`
and `no_sms_backoff` default to false. -/
structure Args where
  open_too_long_seconds : Nat
  sms_off : Bool
  telegram_off : Bool
  no_sms_backoff : Bool
deriving Repr, DecidableEq

/-- `config.rs::Args::sms_backoff`: backoff mode is on unless `--no-sms-backoff`. -/
def Args.sms_backoff (a : Args) : Bool := !a.no_sms_backoff

/-- `monitor.rs::MonitorState`. -/
structure MonitorState where
  door_opened_time : Option Nat
  door_closed_time : Option Nat
  last_door_state : Option Bool
  sms_sent : Bool
  sms_backoff_index : Nat
  last_sms_time : Option Nat
deriving Repr, DecidableEq

/-- `monitor.rs::MonitorState::new`. -/
def MonitorState.new : MonitorState :=
  { door_opened_time := none
    door_closed_time := none
    last_door_state := none
    sms_sent := false
    sms_backoff_index := 0
    last_sms_time := none }

/-- `monitor.rs::MonitorState::reset_sms_state`. -/
def MonitorState.reset_sms_state (s : MonitorState) : MonitorState :=
  { s with sms_sent := false, sms_backoff_index := 0, last_sms_time := none }

/-- The notification messages the monitor builds, as structured events:
`startupStatus` is the "Door Monitor started. Current door state: ..."
message, `doorOpened` is "Door has been opened", `doorClosed d` is
"Door is now closed after being open for d", and `openTooLong t i first` is
the escalation message (ALERT when `first`, REMINDER otherwise) built while
the backoff index is `i` and the door has been open `t` seconds. -/
inductive Event where
  | startupStatus (door_closed : Bool)
  | doorOpened
  | doorClosed (total_time_open : Nat)
  | openTooLong (time_open : Nat) (backoff_index : Nat) (first : Bool)
deriving Repr, DecidableEq

/-- Whether an event is the startup status message. -/
def Event.isStartup : Event → Bool
  | .startupStatus _ => true
  | _ => false

/-- Whether an event is an open-too-long escalation. -/
def Event.isOpenTooLong : Event → Bool
  | .openTooLong _ _ _ => true
  | _ => false

/-- The interval table of `handle_sms_with_backoff`:
5, 15, 30, 60 minutes, in seconds. -/
def sms_intervals : List Nat := [5 * 60, 15 * 60, 30 * 60, 60 * 60]

/-- The `next_interval` computation of `handle_sms_with_backoff`:
`sms_intervals[idx]` while `idx` is in range, else 60 minutes. -/
def next_sms_interval (idx : Nat) : Nat :=
  if h : idx < sms_intervals.length then sms_intervals.get ⟨idx, h⟩
  else 60 * 60

/-- The `should_send_message` decision of `handle_sms_with_backoff`: send
immediately when nothing was sent yet in this episode, otherwise send when
the backoff interval has elapsed since `last_sms_time`, and never send when
`last_sms_time` is absent. -/
def should_send_message (now : Nat) (s : MonitorState) : Bool :=
  if !s.sms_sent then true
  else match s.last_sms_time with
    | some last_message =>
        decide (next_sms_interval s.sms_backoff_index ≤ now - last_message)
    | none => false

/-- `monitor.rs::DoorMonitor::handle_sms_with_backoff`.  Decides
`should_send_message`, and on a send appends the ALERT/REMINDER event and
sets `sms_sent := true`, `last_sms_time := now`, increments the index. -/
def handle_sms_with_backoff (now : Nat) (time_open : Nat) (s : MonitorState) :
    MonitorState × List Event :=
  if should_send_message now s then
    ({ s with sms_sent := true
              last_sms_time := some now
              sms_backoff_index := s.sms_backoff_index + 1 },
     [Event.openTooLong time_open s.sms_backoff_index (!s.sms_sent)])
  else (s, [])

/-- `monitor.rs::DoorMonitor::handle_single_sms`: one ALERT per episode,
only `sms_sent` is touched. -/
def handle_single_sms (time_open : Nat) (s : MonitorState) :
    MonitorState × List Event :=
  if !s.sms_sent then
    ({ s with sms_sent := true },
     [Event.openTooLong time_open s.sms_backoff_index true])
  else (s, [])

/-- `monitor.rs::DoorMonitor::handle_door_state_change`.  On a close, the
"door is now closed" message is built only when `door_opened_time` is set,
while the timestamp updates and `reset_sms_state` are unconditional; on an
open, the "door has been opened" message is unconditional. -/
def handle_door_state_change (door_closed : Bool) (now : Nat) (s : MonitorState) :
    MonitorState × List Event :=
  if door_closed then
    let events : List Event :=
      match s.door_opened_time with
      | some opened_time => [Event.doorClosed (now - opened_time)]
      | none => []
    (({ s with door_opened_time := none
               door_closed_time := some now }).reset_sms_state,
     events)
  else
    ({ s with door_opened_time := some now, door_closed_time := none },
     [Event.doorOpened])

/-- `monitor.rs::DoorMonitor::handle_door_open_too_long`: while the door has
an `door_opened_time` and has been open at least `warning_threshold`
seconds, run the backoff or the single-shot escalation. -/
def handle_door_open_too_long (args : Args) (warning_threshold : Nat)
    (now : Nat) (s : MonitorState) : MonitorState × List Event :=
  match s.door_opened_time with
  | some opened_time =>
      let time_open := now - opened_time
      if warning_threshold ≤ time_open then
        if args.sms_backoff then handle_sms_with_backoff now time_open s
        else handle_single_sms time_open s
      else (s, [])
  | none => (s, [])

/-- `monitor.rs::DoorMonitor::handle_door_status`: on a state change run
`handle_door_state_change` and update `last_door_state`; while the door is
open, additionally run the open-too-long check. -/
def handle_door_status (door_closed : Bool) (args : Args)
    (warning_threshold : Nat) (now : Nat) (s : MonitorState) :
    MonitorState × List Event :=
  let step1 : MonitorState × List Event :=
    if s.last_door_state ≠ some door_closed then
      let r := handle_door_state_change door_closed now s
      ({ r.1 with last_door_state := some door_closed }, r.2)
    else (s, [])
  if !door_closed then
    let r2 := handle_door_open_too_long args warning_threshold now step1.1
    (r2.1, step1.2 ++ r2.2)
  else step1

/-- The initial-status block of `monitor.rs::DoorMonitor::run` (lines
97-132), run once when the startup poll succeeds: record the matching
timestamp, set `last_door_state`, and build the startup-status message. -/
def startup_tick (door_closed : Bool) (now : Nat) (s : MonitorState) :
    MonitorState × List Event :=
  (if door_closed then
     { s with door_closed_time := some now, last_door_state := some door_closed }
   else
     { s with door_opened_time := some now, last_door_state := some door_closed },
   [Event.startupStatus door_closed])

/-- One iteration of the polling loop of `DoorMonitor::run`: a successful
poll (`some door_closed`) is handled by `handle_door_status`; a failed poll
(`none`) only logs and leaves the state untouched. -/
def loop_tick (poll : Option Bool) (args : Args) (warning_threshold : Nat)
    (now : Nat) (s : MonitorState) : MonitorState × List Event :=
  match poll with
  | some door_closed => handle_door_status door_closed args warning_threshold now s
  | none => (s, [])

/-- The polling loop of `DoorMonitor::run`, fed an explicit finite list of
(poll result, time) pairs. -/
def run_loop (args : Args) (warning_threshold : Nat) :
    List (Option Bool × Nat) → MonitorState → MonitorState × List Event
  | [], s => (s, [])
  | (p, t) :: rest, s =>
      let r := loop_tick p args warning_threshold t s
      let r2 := run_loop args warning_threshold rest r.1
      (r2.1, r.2 ++ r2.2)

/-- `monitor.rs::DoorMonitor::run`: the startup poll (which on failure only
logs), followed by the polling loop, starting from `MonitorState::new` and
using `args.open_too_long_seconds` as the warning threshold. -/
def run (args : Args) (startup_poll : Option Bool × Nat)
    (ticks : List (Option Bool × Nat)) : MonitorState × List Event :=
  let r0 : MonitorState × List Event :=
    match startup_poll.1 with
    | some door_closed => startup_tick door_closed startup_poll.2 MonitorState.new
    | none => (MonitorState.new, [])
  let r1 := run_loop args args.open_too_long_seconds ticks r0.1
  (r1.1, r0.2 ++ r1.2)

/-- The two notification channels of the monitor. -/
inductive Channel where
  | sms
  | telegram
deriving Repr, DecidableEq

/-- Dispatch of one built message: attempted on the SMS channel unless
`sms_off`, and on the Telegram channel unless `telegram_off`; the delivery
outcome (`true` = the send succeeded) is recorded but, as in the Rust code,
only logged. -/
def dispatch_event (args : Args) (outcome : Channel → Event → Bool)
    (e : Event) : List (Channel × Event × Bool) :=
  (if !args.sms_off then [(Channel.sms, e, outcome Channel.sms e)] else []) ++
  (if !args.telegram_off then [(Channel.telegram, e, outcome Channel.telegram e)] else [])

/-- The full run together with every attempted channel send and its
outcome. -/
def runD (args : Args) (outcome : Channel → Event → Bool)
    (startup_poll : Option Bool × Nat) (ticks : List (Option Bool × Nat)) :
    MonitorState × List (Channel × Event × Bool) :=
  let r := run args startup_poll ticks
  (r.1, r.2.flatMap (dispatch_event args outcome))

/-- `utils.rs`: two-digit zero padding, the `{:02}` format. -/
def pad2 (n : Nat) : String :=
  if n < 10 then "0" ++ toString n else toString n

/-- `utils.rs::format_duration`, on the whole number of seconds of the
duration (`Duration::as_secs`). -/
def format_duration (total_seconds : Nat) : String :=
  let days := total_seconds / 86400
  let hours := total_seconds % 86400 / 3600
  let minutes := total_seconds % 3600 / 60
  let seconds := total_seconds % 60
  if 0 < days then
    toString days ++ "d " ++ pad2 hours ++ ":" ++ pad2 minutes ++ ":" ++ pad2 seconds
  else
    pad2 hours ++ ":" ++ pad2 minutes ++ ":" ++ pad2 seconds

/-- Default-flavoured configuration with warning threshold 0 and backoff on. -/
def argsB : Args :=
  { open_too_long_seconds := 0, sms_off := false, telegram_off := false
    no_sms_backoff := false }

/-- Single-shot configuration with warning threshold 0. -/
def argsS : Args :=
  { open_too_long_seconds := 0, sms_off := false, telegram_off := false
    no_sms_backoff := true }

/-- Single-shot configuration with the default 15-second warning threshold. -/
def argsS15 : Args :=
  { open_too_long_seconds := 15, sms_off := false, telegram_off := false
    no_sms_backoff := true }

/-! ### Shape lemmas for the escalation handlers -/

/-- `handle_sms_with_backoff` either performs a send, setting all three
notification fields and emitting one escalation event, or does nothing. -/
theorem handle_sms_with_backoff_cases (now time_open : Nat) (s : MonitorState) :
    handle_sms_with_backoff now time_open s =
      ({ s with sms_sent := true
                last_sms_time := some now
                sms_backoff_index := s.sms_backoff_index + 1 },
       [Event.openTooLong time_open s.sms_backoff_index (!s.sms_sent)]) ∨
    handle_sms_with_backoff now time_open s = (s, []) := by
  unfold handle_sms_with_backoff
  cases h : should_send_message now s
  · rw [if_neg (by simp [h])]
    exact Or.inr rfl
  · rw [if_pos (by simp [h])]
    exact Or.inl rfl

/-- `handle_single_sms` either sends (setting only `sms_sent`) or does
nothing. -/
theorem handle_single_sms_cases (time_open : Nat) (s : MonitorState) :
    handle_single_sms time_open s =
      ({ s with sms_sent := true },
       [Event.openTooLong time_open s.sms_backoff_index true]) ∨
    handle_single_sms time_open s = (s, []) := by
  unfold handle_single_sms
  cases h : s.sms_sent
  · rw [if_pos (by simp [h])]
    exact Or.inl rfl
  · rw [if_neg (by simp [h])]
    exact Or.inr rfl

/-- The open-too-long check never touches the door timestamps or
`last_door_state`. -/
theorem handle_door_open_too_long_frame (a : Args) (wt now : Nat) (s : MonitorState) :
    (handle_door_open_too_long a wt now s).1.door_opened_time = s.door_opened_time ∧
    (handle_door_open_too_long a wt now s).1.door_closed_time = s.door_closed_time ∧
    (handle_door_open_too_long a wt now s).1.last_door_state = s.last_door_state := by
  unfold handle_door_open_too_long
  cases h : s.door_opened_time with
  | none => simp [h]
  | some ot =>
      dsimp only
      split
      · split
        · rcases handle_sms_with_backoff_cases now (now - ot) s with h1 | h1 <;>
            rw [h1] <;> simp [h]
        · rcases handle_single_sms_cases (now - ot) s with h1 | h1 <;>
            rw [h1] <;> simp [h]
      · simp [h]

/-- Every event the open-too-long check emits is an escalation event. -/
theorem handle_door_open_too_long_events (a : Args) (wt now : Nat) (s : MonitorState) :
    ∀ e ∈ (handle_door_open_too_long a wt now s).2, e.isOpenTooLong = true := by
  unfold handle_door_open_too_long
  cases h : s.door_opened_time with
  | none => simp
  | some ot =>
      dsimp only
      split
      · split
        · rcases handle_sms_with_backoff_cases now (now - ot) s with h1 | h1 <;>
            rw [h1] <;> simp [Event.isOpenTooLong]
        · rcases handle_single_sms_cases (now - ot) s with h1 | h1 <;>
            rw [h1] <;> simp [Event.isOpenTooLong]
      · simp

/-- State outcomes of the open-too-long check: a backoff send, a single-shot
send (only possible with `--no-sms-backoff`), or no change. -/
theorem handle_door_open_too_long_state_cases (a : Args) (wt now : Nat) (s : MonitorState) :
    (handle_door_open_too_long a wt now s).1 =
      { s with sms_sent := true
               last_sms_time := some now
               sms_backoff_index := s.sms_backoff_index + 1 } ∨
    (a.no_sms_backoff = true ∧
      (handle_door_open_too_long a wt now s).1 = { s with sms_sent := true }) ∨
    (handle_door_open_too_long a wt now s).1 = s := by
  unfold handle_door_open_too_long
  cases h : s.door_opened_time with
  | none => exact Or.inr (Or.inr rfl)
  | some ot =>
      dsimp only
      split
      · split
        · rcases handle_sms_with_backoff_cases now (now - ot) s with h1 | h1 <;> rw [h1]
          · exact Or.inl (by simp [h])
          · exact Or.inr (Or.inr rfl)
        · have hnb : a.no_sms_backoff = true := by
            rename_i hsb
            simp [Args.sms_backoff] at hsb
            exact hsb
          rcases handle_single_sms_cases (now - ot) s with h1 | h1 <;> rw [h1]
          · exact Or.inr (Or.inl ⟨hnb, by simp [h]⟩)
          · exact Or.inr (Or.inr rfl)
      · exact Or.inr (Or.inr rfl)

/-! ### Case equations for a whole status tick -/

/-- A closed sample with the door already known closed changes nothing. -/
theorem handle_door_status_closed_same (a : Args) (wt now : Nat) (s : MonitorState)
    (heq : s.last_door_state = some true) :
    handle_door_status true a wt now s = (s, []) := by
  unfold handle_door_status
  simp [heq]

/-- A closed sample after any other known state runs the open-to-closed
transition: timestamps move, the sms state is reset, and the door-closed
message is built exactly when an opening timestamp exists. -/
theorem handle_door_status_closed_changed (a : Args) (wt now : Nat) (s : MonitorState)
    (hne : s.last_door_state ≠ some true) :
    handle_door_status true a wt now s =
      ({ door_opened_time := none
         door_closed_time := some now
         last_door_state := some true
         sms_sent := false
         sms_backoff_index := 0
         last_sms_time := none },
       match s.door_opened_time with
       | some opened_time => [Event.doorClosed (now - opened_time)]
       | none => []) := by
  unfold handle_door_status
  cases hdo : s.door_opened_time <;>
    simp [hne, hdo, handle_door_state_change, MonitorState.reset_sms_state]

/-- An open sample with the door already known open only runs the
open-too-long check. -/
theorem handle_door_status_open_same (a : Args) (wt now : Nat) (s : MonitorState)
    (heq : s.last_door_state = some false) :
    handle_door_status false a wt now s = handle_door_open_too_long a wt now s := by
  unfold handle_door_status
  simp [heq]

/-- An open sample after any other known state runs the closed-to-open
transition (emitting the door-opened message) and then the open-too-long
check on the updated state. -/
theorem handle_door_status_open_changed (a : Args) (wt now : Nat) (s : MonitorState)
    (hne : s.last_door_state ≠ some false) :
    handle_door_status false a wt now s =
      ((handle_door_open_too_long a wt now
          { s with door_opened_time := some now
                   door_closed_time := none
                   last_door_state := some false }).1,
       Event.doorOpened ::
         (handle_door_open_too_long a wt now
            { s with door_opened_time := some now
                     door_closed_time := none
                     last_door_state := some false }).2) := by
  unfold handle_door_status
  simp [hne, handle_door_state_change]

/-! ### Reachability invariants -/

/-- While the door is known open, an opening timestamp is recorded. -/
@[reducible] def InvOpen (s : MonitorState) : Prop :=
  s.last_door_state = some false → s.door_opened_time.isSome = true

/-- A positive backoff index means a notification was sent, and in backoff
mode a sent notification has a recorded time. -/
@[reducible] def InvSms (a : Args) (s : MonitorState) : Prop :=
  (0 < s.sms_backoff_index → s.sms_sent = true) ∧
  (a.no_sms_backoff = false → s.sms_sent = true → s.last_sms_time.isSome = true)

/-- A predicate preserved by every loop tick is preserved by the loop. -/
theorem run_loop_preserves {P : MonitorState → Prop} (a : Args) (wt : Nat)
    (hstep : ∀ p t s, P s → P (loop_tick p a wt t s).1) :
    ∀ ticks s, P s → P (run_loop a wt ticks s).1 := by
  intro ticks
  induction ticks with
  | nil => intro s h; simpa [run_loop] using h
  | cons pt rest ih =>
      intro s h
      cases pt with
      | mk p t =>
          simp only [run_loop]
          exact ih _ (hstep p t s h)

/-- Each tick preserves `InvOpen`. -/
theorem loop_tick_InvOpen (a : Args) (wt : Nat) (p : Option Bool) (t : Nat)
    (s : MonitorState) (h : InvOpen s) : InvOpen (loop_tick p a wt t s).1 := by
  cases p with
  | none => simpa [loop_tick] using h
  | some dc =>
      simp only [loop_tick]
      cases dc with
      | true =>
          by_cases heq : s.last_door_state = some true
          · rw [handle_door_status_closed_same a wt t s heq]
            exact h
          · rw [handle_door_status_closed_changed a wt t s heq]
            intro hlast
            cases hlast
      | false =>
          by_cases heq : s.last_door_state = some false
          · rw [handle_door_status_open_same a wt t s heq]
            intro _
            rw [(handle_door_open_too_long_frame a wt t s).1]
            exact h heq
          · rw [handle_door_status_open_changed a wt t s heq]
            intro _
            rw [(handle_door_open_too_long_frame a wt t _).1]
            simp

/-- Each tick preserves `InvSms`. -/
theorem loop_tick_InvSms (a : Args) (wt : Nat) (p : Option Bool) (t : Nat)
    (s : MonitorState) (h : InvSms a s) : InvSms a (loop_tick p a wt t s).1 := by
  have htoo :
      ∀ s1 : MonitorState,
        s1.sms_sent = s.sms_sent →
        s1.sms_backoff_index = s.sms_backoff_index →
        s1.last_sms_time = s.last_sms_time →
        InvSms a (handle_door_open_too_long a wt t s1).1 := by
    intro s1 e1 e2 e3
    rcases handle_door_open_too_long_state_cases a wt t s1 with hc | ⟨hnb, hc⟩ | hc <;>
      rw [hc]
    · exact ⟨fun _ => rfl, fun _ _ => by simp⟩
    · refine ⟨fun _ => rfl, fun hnb' => ?_⟩
      rw [hnb] at hnb'
      cases hnb'
    · refine ⟨fun hpos => ?_, fun hb hsent => ?_⟩
      · rw [e1]
        exact h.1 (by rw [← e2]; exact hpos)
      · rw [e3]
        exact h.2 hb (by rw [← e1]; exact hsent)
  cases p with
  | none => simpa [loop_tick] using h
  | some dc =>
      simp only [loop_tick]
      cases dc with
      | true =>
          by_cases heq : s.last_door_state = some true
          · rw [handle_door_status_closed_same a wt t s heq]
            exact h
          · rw [handle_door_status_closed_changed a wt t s heq]
            refine ⟨fun hpos => ?_, fun _ hsent => ?_⟩
            · exact absurd hpos (by simp)
            · exact absurd hsent (by simp)
      | false =>
          by_cases heq : s.last_door_state = some false
          · rw [handle_door_status_open_same a wt t s heq]
            exact htoo s rfl rfl rfl
          · rw [handle_door_status_open_changed a wt t s heq]
            exact htoo _ rfl rfl rfl

/-- The fresh state satisfies `InvOpen`. -/
theorem InvOpen_new : InvOpen MonitorState.new := by
  intro h
  simp [MonitorState.new] at h

/-- The fresh state satisfies `InvSms`. -/
theorem InvSms_new (a : Args) : InvSms a MonitorState.new := by
  constructor
  · intro h
    simp [MonitorState.new] at h
  · intro _ h
    simp [MonitorState.new] at h

/-- The startup tick establishes `InvOpen`. -/
theorem InvOpen_startup (dc : Bool) (t : Nat) :
    InvOpen (startup_tick dc t MonitorState.new).1 := by
  cases dc <;> intro h <;> simp [startup_tick, MonitorState.new] at h ⊢

/-- The startup tick establishes `InvSms`. -/
theorem InvSms_startup (a : Args) (dc : Bool) (t : Nat) :
    InvSms a (startup_tick dc t MonitorState.new).1 := by
  cases dc <;>
    exact ⟨fun h => by simp [startup_tick, MonitorState.new] at h,
           fun _ h => by simp [startup_tick, MonitorState.new] at h⟩

/-- Every state the monitor can reach satisfies both invariants. -/
theorem run_invariants (a : Args) (stp : Option Bool × Nat)
    (ticks : List (Option Bool × Nat)) :
    InvOpen (run a stp ticks).1 ∧ InvSms a (run a stp ticks).1 := by
  obtain ⟨sp, st⟩ := stp
  have hgen :
      ∀ s0 : MonitorState, InvOpen s0 → InvSms a s0 →
        InvOpen (run_loop a a.open_too_long_seconds ticks s0).1 ∧
        InvSms a (run_loop a a.open_too_long_seconds ticks s0).1 := by
    intro s0 h1 h2
    exact ⟨run_loop_preserves a a.open_too_long_seconds
        (loop_tick_InvOpen a a.open_too_long_seconds) ticks s0 h1,
      run_loop_preserves a a.open_too_long_seconds
        (loop_tick_InvSms a a.open_too_long_seconds) ticks s0 h2⟩
  cases sp with
  | none =>
      simpa [run] using hgen MonitorState.new InvOpen_new (InvSms_new a)
  | some dc =>
      simpa [run] using
        hgen (startup_tick dc st MonitorState.new).1
          (InvOpen_startup dc st) (InvSms_startup a dc st)

/-- Whether an event is the immediate door-opened message. -/
def Event.isDoorOpened : Event → Bool
  | .doorOpened => true
  | _ => false

/-- An escalation event is not the startup message. -/
theorem isOpenTooLong_not_isStartup (e : Event) (h : e.isOpenTooLong = true) :
    e.isStartup = false := by
  cases e <;> simp [Event.isOpenTooLong, Event.isStartup] at h ⊢

/-- An escalation event is not the door-opened message. -/
theorem isOpenTooLong_not_isDoorOpened (e : Event) (h : e.isOpenTooLong = true) :
    e.isDoorOpened = false := by
  cases e <;> simp [Event.isOpenTooLong, Event.isDoorOpened] at h ⊢

/-! ### Claim theorems -/

/-- C9 (confirmed): `format_duration` decomposes the whole seconds of the
duration into days, hours in 0-23, minutes in 0-59 and seconds in 0-59 by
integer division and modulo against 86400, 3600 and 60 (the four parts
recompose to the input), and renders `"Dd HH:MM:SS"` when days > 0 and
`"HH:MM:SS"` otherwise; in particular `format_duration 0 = "00:00:00"` and
`format_duration 86400 = "1d 00:00:00"`. -/
theorem format_duration_spec :
    (∀ d : Nat,
      d / 86400 * 86400 + d % 86400 / 3600 * 3600 + d % 3600 / 60 * 60 + d % 60 = d ∧
      d % 86400 / 3600 < 24 ∧ d % 3600 / 60 < 60 ∧ d % 60 < 60 ∧
      format_duration d =
        (if 0 < d / 86400 then
          toString (d / 86400) ++ "d " ++ pad2 (d % 86400 / 3600) ++ ":" ++
            pad2 (d % 3600 / 60) ++ ":" ++ pad2 (d % 60)
        else
          pad2 (d % 86400 / 3600) ++ ":" ++ pad2 (d % 3600 / 60) ++ ":" ++ pad2 (d % 60))) ∧
    format_duration 0 = "00:00:00" ∧ format_duration 86400 = "1d 00:00:00" := by
  refine ⟨fun d => ⟨?_, ?_, ?_, ?_, rfl⟩, by decide, by decide⟩ <;> omega

/-- C7 (confirmed): whenever `sms_sent` is true but `last_sms_time` is
absent, the backoff decision is `false`: `handle_sms_with_backoff` emits no
escalation event and leaves every state field unchanged. -/
theorem backoff_inconsistent_state_fail_safe (now time_open : Nat) (s : MonitorState)
    (hsent : s.sms_sent = true) (hnone : s.last_sms_time = none) :
    should_send_message now s = false ∧
    handle_sms_with_backoff now time_open s = (s, []) := by
  have hss : should_send_message now s = false := by
    unfold should_send_message
    rw [hsent, hnone]
    simp
  refine ⟨hss, ?_⟩
  unfold handle_sms_with_backoff
  rw [hss]
  simp

/-- Witness for C7 at a concrete inconsistent state. -/
theorem backoff_inconsistent_state_fail_safe_witness :
    handle_sms_with_backoff 900 900
        { door_opened_time := some 0, door_closed_time := none
          last_door_state := some false, sms_sent := true
          sms_backoff_index := 1, last_sms_time := none } =
      ({ door_opened_time := some 0, door_closed_time := none
         last_door_state := some false, sms_sent := true
         sms_backoff_index := 1, last_sms_time := none }, []) :=
  (backoff_inconsistent_state_fail_safe 900 900 _ rfl rfl).2

/-- C8 (confirmed): a failed poll tick mutates no field of `MonitorState`
and emits nothing, and removing a failed tick from a run changes neither
the final state nor the emitted events: the next successful poll continues
the episode as if the failure tick never happened. -/
theorem poll_failure_no_mutation (a : Args) (wt : Nat) :
    (∀ (t : Nat) (s : MonitorState), loop_tick none a wt t s = (s, [])) ∧
    (∀ (pre post : List (Option Bool × Nat)) (t : Nat) (s : MonitorState),
      run_loop a wt (pre ++ (none, t) :: post) s = run_loop a wt (pre ++ post) s) := by
  refine ⟨fun t s => rfl, ?_⟩
  intro pre
  induction pre with
  | nil =>
      intro post t s
      simp [run_loop, loop_tick]
  | cons pt rest ih =>
      intro post t s
      cases pt with
      | mk p t0 =>
          simp only [List.cons_append, run_loop, List.append_eq]
          rw [ih post t]

/-- C5 (confirmed): every Closed-to-Open transition tick emits exactly one
immediate `DoorOpened` event — for every warning threshold and every
backoff state — and sets `door_opened_time := now` while clearing
`door_closed_time`. -/
theorem door_opened_transition (a : Args) (wt now : Nat) (s : MonitorState)
    (hlast : s.last_door_state = some true) :
    (handle_door_status false a wt now s).2.countP (fun e => e.isDoorOpened) = 1 ∧
    (handle_door_status false a wt now s).1.door_opened_time = some now ∧
    (handle_door_status false a wt now s).1.door_closed_time = none ∧
    (handle_door_status false a wt now s).1.last_door_state = some false := by
  have hne : s.last_door_state ≠ some false := by rw [hlast]; simp
  rw [handle_door_status_open_changed a wt now s hne]
  have hfr := handle_door_open_too_long_frame a wt now
    { s with door_opened_time := some now
             door_closed_time := none
             last_door_state := some false }
  have hcount :
      (handle_door_open_too_long a wt now
          { s with door_opened_time := some now
                   door_closed_time := none
                   last_door_state := some false }).2.countP
        (fun e => e.isDoorOpened) = 0 := by
    rw [List.countP_eq_zero]
    intro e hmem
    have h1 := handle_door_open_too_long_events a wt now _ e hmem
    simp [isOpenTooLong_not_isDoorOpened e h1]
  refine ⟨?_, ?_, ?_, ?_⟩
  · rw [List.countP_cons, hcount]
    simp [Event.isDoorOpened]
  · rw [hfr.1]
  · rw [hfr.2.1]
  · rw [hfr.2.2]

/-- Witness for C5: a concrete Closed-to-Open tick. -/
theorem door_opened_transition_witness :
    (handle_door_status false argsB 15 9
        { door_opened_time := none, door_closed_time := some 2
          last_door_state := some true, sms_sent := false
          sms_backoff_index := 0, last_sms_time := none }).2.countP
      (fun e => e.isDoorOpened) = 1 ∧
    (handle_door_status false argsB 15 9
        { door_opened_time := none, door_closed_time := some 2
          last_door_state := some true, sms_sent := false
          sms_backoff_index := 0, last_sms_time := none }).1.door_opened_time = some 9 := by
  have h := door_opened_transition argsB 15 9
    { door_opened_time := none, door_closed_time := some 2
      last_door_state := some true, sms_sent := false
      sms_backoff_index := 0, last_sms_time := none } rfl
  exact ⟨h.1, h.2.1⟩

/-- C4 (confirmed): at every reachable state about to take an
Open-to-Closed transition, the opening timestamp exists, and the transition
tick emits exactly the one `DoorClosed (now - opened_at)` event while
unconditionally resetting `sms_sent := false`, `sms_backoff_index := 0` and
`last_sms_time := none` and moving the door timestamps — whether or not any
escalation fired during the episode. -/
theorem door_closed_transition (a : Args) (stp : Option Bool × Nat)
    (ticks : List (Option Bool × Nat)) (wt now ot : Nat)
    (hlast : (run a stp ticks).1.last_door_state = some false) :
    ((run a stp ticks).1.door_opened_time).isSome = true ∧
    ((run a stp ticks).1.door_opened_time = some ot →
      handle_door_status true a wt now (run a stp ticks).1 =
        ({ door_opened_time := none
           door_closed_time := some now
           last_door_state := some true
           sms_sent := false
           sms_backoff_index := 0
           last_sms_time := none },
         [Event.doorClosed (now - ot)])) := by
  refine ⟨(run_invariants a stp ticks).1 hlast, fun hopen => ?_⟩
  have hne : (run a stp ticks).1.last_door_state ≠ some true := by
    rw [hlast]
    simp
  rw [handle_door_status_closed_changed a wt now _ hne, hopen]

/-- Witness for C4: closing the door after a run whose startup sample was
open. -/
theorem door_closed_transition_witness :
    ((run argsB (some false, 0) []).1.door_opened_time).isSome = true ∧
    handle_door_status true argsB 15 7 (run argsB (some false, 0) []).1 =
      ({ door_opened_time := none
         door_closed_time := some 7
         last_door_state := some true
         sms_sent := false
         sms_backoff_index := 0
         last_sms_time := none },
       [Event.doorClosed 7]) := by
  have h := door_closed_transition argsB (some false, 0) [] 15 7 0 (by decide)
  exact ⟨h.1, h.2 (by decide)⟩

/-- C3 counterexample: when the startup poll fails, the first sample ever
received (closed, at time 5, with `last_door_state` still `None`) is
handled by the state-change branch and emits no event at all — in
particular not exactly one `StartupStatus` event — though it does record
`door_closed_time` and `last_door_state`. -/
theorem startup_failure_counterexample :
    run argsB (none, 0) [(some true, 5)] =
      ({ door_opened_time := none, door_closed_time := some 5
         last_door_state := some true, sms_sent := false
         sms_backoff_index := 0, last_sms_time := none },
       []) := by decide

/-- C3 (amended): when the startup poll succeeds, the first sample sets
`opened_at`/`closed_at` per the sampled state and `last_known_closed`, and
emits exactly one `StartupStatus` event with no backoff logic on that tick
(so a closed first sample yields `closed_at = now`, no `opened_at`, and
untouched sms fields); when the startup poll fails, the first sample
received in the loop is handled as a state change and emits no
`StartupStatus` event. -/
theorem first_sample_startup_status (a : Args) (t : Nat) (dc : Bool) :
    (run a (some dc, t) []).2 = [Event.startupStatus dc] ∧
    (run a (some dc, t) []).1 =
      { door_opened_time := if dc then none else some t
        door_closed_time := if dc then some t else none
        last_door_state := some dc
        sms_sent := false
        sms_backoff_index := 0
        last_sms_time := none } ∧
    (∀ t0 t1 : Nat,
      (run a (none, t0) [(some dc, t1)]).2.countP (fun e => e.isStartup) = 0) := by
  refine ⟨?_, ?_, ?_⟩
  · cases dc <;> simp [run, run_loop, startup_tick]
  · cases dc <;> simp [run, run_loop, startup_tick, MonitorState.new]
  · intro t0 t1
    cases dc with
    | true =>
        have hne : (MonitorState.new).last_door_state ≠ some true := by
          simp [MonitorState.new]
        have hstep := handle_door_status_closed_changed a a.open_too_long_seconds t1
          MonitorState.new hne
        simp only [run, run_loop, loop_tick, hstep]
        simp [MonitorState.new]
    | false =>
        have hne : (MonitorState.new).last_door_state ≠ some false := by
          simp [MonitorState.new]
        have hcount :
            (handle_door_open_too_long a a.open_too_long_seconds t1
                { door_opened_time := some t1
                  door_closed_time := none
                  last_door_state := some false
                  sms_sent := MonitorState.new.sms_sent
                  sms_backoff_index := MonitorState.new.sms_backoff_index
                  last_sms_time := MonitorState.new.last_sms_time }).2.countP
              (fun e => e.isStartup) = 0 := by
          rw [List.countP_eq_zero]
          intro e hmem
          have h1 := handle_door_open_too_long_events a a.open_too_long_seconds t1 _ e hmem
          simp [isOpenTooLong_not_isStartup e h1]
        have hstep := handle_door_status_open_changed a a.open_too_long_seconds t1
          MonitorState.new hne
        simp only [run, run_loop, loop_tick, hstep, List.nil_append, List.append_nil,
          List.countP_cons, hcount]
        simp [Event.isStartup]

/-- C1 counterexample: with the default intervals and warning threshold 0,
a door that opens at t=60 fires the first escalation on that same tick
(`backoff_index` 0 to 1), but the ticks 4 minutes and 6 minutes after
opening (t=300 and t=420) both emit nothing and leave `backoff_index` at 1:
the claimed second `OpenTooLong` at 6 minutes does not happen, because the
first send already incremented the index to 1 and the due interval is
therefore `sms_intervals[1] = 15` minutes — the 5-minute entry is never
consulted after a send. -/
theorem backoff_six_minutes_counterexample :
    run argsB (some true, 0)
        [(some false, 60), (some false, 300), (some false, 420)] =
      ({ door_opened_time := some 60, door_closed_time := none
         last_door_state := some false, sms_sent := true
         sms_backoff_index := 1, last_sms_time := some 60 },
       [Event.startupStatus true, Event.doorOpened, Event.openTooLong 0 0 true]) := by
  decide

/-- C1 (amended): with default intervals `[5,15,30,60]` minutes and warning
threshold 0, the tick that observes the opening emits the first
`OpenTooLong` and moves `backoff_index` from 0 to 1; the ticks 4 and 6
minutes later emit nothing, and the second `OpenTooLong` fires once 15
minutes (`sms_intervals[1]`, the index being already 1) have elapsed since
the first notification, moving `backoff_index` from 1 to 2; the due
interval is `sms_intervals[min(backoff_index, 3)]`, hence exactly 60
minutes for every `backoff_index ≥ 4`. -/
theorem backoff_schedule_amended :
    (run argsB (some true, 0)
        [(some false, 60), (some false, 300), (some false, 420), (some false, 960)] =
      ({ door_opened_time := some 60, door_closed_time := none
         last_door_state := some false, sms_sent := true
         sms_backoff_index := 2, last_sms_time := some 960 },
       [Event.startupStatus true, Event.doorOpened, Event.openTooLong 0 0 true,
        Event.openTooLong 900 1 false])) ∧
    (∀ i : Nat, next_sms_interval i = sms_intervals.getD (min i 3) 0) ∧
    (∀ i : Nat, 4 ≤ i → next_sms_interval i = 60 * 60) := by
  refine ⟨by decide, ?_, ?_⟩
  · intro i
    match i with
    | 0 => rfl
    | 1 => rfl
    | 2 => rfl
    | 3 => rfl
    | (n + 4) =>
        have h4 : ¬ (n + 4 < sms_intervals.length) := by
          show ¬ (n + 4 < 4)
          omega
        have hmin : min (n + 4) 3 = 3 := by omega
        unfold next_sms_interval
        rw [dif_neg h4, hmin]
        rfl
  · intro i hi
    have h4 : ¬ (i < sms_intervals.length) := by
      show ¬ (i < 4)
      omega
    unfold next_sms_interval
    rw [dif_neg h4]

/-- Witness for the amended C1 at backoff index 5. -/
theorem backoff_schedule_amended_witness :
    4 ≤ 5 ∧ next_sms_interval 5 = 60 * 60 :=
  ⟨by decide, backoff_schedule_amended.2.2 5 (by decide)⟩

/-- C2 counterexample: in single-shot mode (threshold 0), after the door
opens at t=10 the reached state has `sms_sent = true` while
`last_sms_time = none`, falsifying the claim that `notification_sent`
implies `last_notification_at.is_some()` under either policy. -/
theorem single_shot_invariant_counterexample :
    (run argsS (some true, 0) [(some false, 10)]).1.sms_sent = true ∧
    (run argsS (some true, 0) [(some false, 10)]).1.last_sms_time = none := by
  decide

/-- C2 (amended): in every reachable state, `backoff_index > 0` implies
`notification_sent`; and when the backoff policy is enabled
(`no_sms_backoff = false`), `notification_sent` additionally implies
`last_notification_at.is_some()`.  In single-shot mode the second
implication fails, as the counterexample shows: `handle_single_sms` sets
`sms_sent` without recording a notification time. -/
theorem state_invariants_amended (a : Args) (stp : Option Bool × Nat)
    (ticks : List (Option Bool × Nat)) :
    (0 < (run a stp ticks).1.sms_backoff_index →
      (run a stp ticks).1.sms_sent = true) ∧
    (a.no_sms_backoff = false → (run a stp ticks).1.sms_sent = true →
      ((run a stp ticks).1.last_sms_time).isSome = true) :=
  (run_invariants a stp ticks).2

/-- Witness for the amended C2 after a backoff-mode escalation. -/
theorem state_invariants_amended_witness :
    (run argsB (some true, 0) [(some false, 60)]).1.sms_sent = true ∧
    ((run argsB (some true, 0) [(some false, 60)]).1.last_sms_time).isSome = true := by
  have h := state_invariants_amended argsB (some true, 0) [(some false, 60)]
  have h1 := h.1 (by decide)
  exact ⟨h1, h.2 rfl h1⟩

/-- With backoff disabled, the open-too-long check either fires the single
alert (threshold met and nothing sent yet in this episode) or does
nothing. -/
theorem too_long_single_shot (a : Args) (hb : a.no_sms_backoff = true)
    (wt t ot : Nat) (s : MonitorState) (hopen : s.door_opened_time = some ot) :
    handle_door_open_too_long a wt t s =
      if wt ≤ t - ot ∧ s.sms_sent = false then
        ({ s with sms_sent := true },
         [Event.openTooLong (t - ot) s.sms_backoff_index true])
      else (s, []) := by
  unfold handle_door_open_too_long handle_single_sms
  rw [hopen]
  dsimp only
  have hsb : a.sms_backoff = false := by simp [Args.sms_backoff, hb]
  by_cases hwt : wt ≤ t - ot <;> cases hs : s.sms_sent <;> simp [hwt, hs, hsb]

/-- With backoff disabled, a tick that still sees the door open either
fires the single alert or does nothing. -/
theorem open_tick_single_shot (a : Args) (hb : a.no_sms_backoff = true)
    (wt t ot : Nat) (s : MonitorState)
    (hlast : s.last_door_state = some false)
    (hopen : s.door_opened_time = some ot) :
    handle_door_status false a wt t s =
      if wt ≤ t - ot ∧ s.sms_sent = false then
        ({ s with sms_sent := true },
         [Event.openTooLong (t - ot) s.sms_backoff_index true])
      else (s, []) := by
  rw [handle_door_status_open_same a wt t s hlast,
    too_long_single_shot a hb wt t ot s hopen]

/-- With backoff disabled, over the remaining open ticks of an episode the
number of escalation events is one when some tick reaches the threshold
while nothing was sent yet, and zero otherwise. -/
theorem single_shot_episode_count (a : Args) (hb : a.no_sms_backoff = true)
    (wt ot : Nat) :
    ∀ (ts : List Nat) (s : MonitorState),
      s.last_door_state = some false → s.door_opened_time = some ot →
      (run_loop a wt (ts.map (fun t => ((some false : Option Bool), t))) s).2.countP
          (fun e => e.isOpenTooLong)
        = if s.sms_sent = true then 0
          else if ts.any (fun t => decide (wt ≤ t - ot)) then 1 else 0 := by
  intro ts
  induction ts with
  | nil =>
      intro s h1 h2
      cases hs : s.sms_sent <;> simp [run_loop, hs]
  | cons t rest ih =>
      intro s h1 h2
      simp only [List.map_cons, run_loop, loop_tick]
      rw [open_tick_single_shot a hb wt t ot s h1 h2]
      by_cases hwt : wt ≤ t - ot
      · cases hs : s.sms_sent with
        | false =>
            rw [if_pos ⟨hwt, rfl⟩]
            have ihrec := ih { s with sms_sent := true } (by simpa using h1)
              (by simpa using h2)
            simp only [List.countP_append, ihrec]
            simp [hs, Event.isOpenTooLong, List.any_cons, hwt]
        | true =>
            rw [if_neg (by simp)]
            have ihrec := ih s h1 h2
            simp only [List.countP_append, ihrec]
            simp [hs]
      · rw [if_neg (by simp [hwt])]
        have ihrec := ih s h1 h2
        simp only [List.countP_append, ihrec]
        cases hs : s.sms_sent <;> simp [hs, List.any_cons, hwt]

/-- C6 (confirmed): under the single-shot policy, an open episode —
starting from a state about to take the Closed-to-Open transition, with
its sms flag still reset — emits exactly one `OpenTooLong` event over the
whole episode when some tick reaches the warning threshold, and none
otherwise: never more than one, however long the door stays open and
however many ticks occur. -/
theorem single_shot_once_per_episode (a : Args) (hb : a.no_sms_backoff = true)
    (wt t0 : Nat) (ts : List Nat) (s : MonitorState)
    (hlast : s.last_door_state = some true) (hsent : s.sms_sent = false) :
    (run_loop a wt (((some false : Option Bool), t0) ::
        ts.map (fun t => ((some false : Option Bool), t))) s).2.countP
        (fun e => e.isOpenTooLong)
      = if (t0 :: ts).any (fun t => decide (wt ≤ t - t0)) then 1 else 0 := by
  have hne : s.last_door_state ≠ some false := by rw [hlast]; simp
  simp only [run_loop, loop_tick]
  rw [handle_door_status_open_changed a wt t0 s hne]
  rw [too_long_single_shot a hb wt t0 t0
    { s with door_opened_time := some t0
             door_closed_time := none
             last_door_state := some false } rfl]
  by_cases hwt : wt ≤ t0 - t0
  · rw [if_pos ⟨hwt, hsent⟩]
    have ihrec := single_shot_episode_count a hb wt t0 ts
      { s with door_opened_time := some t0
               door_closed_time := none
               last_door_state := some false
               sms_sent := true } rfl rfl
    simp only [List.countP_append, ihrec]
    have hw0 : wt = 0 := by omega
    simp [Event.isOpenTooLong, hw0]
  · have hw0 : wt ≠ 0 := by omega
    rw [if_neg (by simp [hw0])]
    have ihrec := single_shot_episode_count a hb wt t0 ts
      { s with door_opened_time := some t0
               door_closed_time := none
               last_door_state := some false } rfl rfl
    simp only [List.countP_append, ihrec]
    simp [hsent, Event.isOpenTooLong, hw0]

/-- Witness for C6: a concrete single-shot episode (threshold 15 s, ticks
at 100, 110, 120 s with the door opening at 100) emits exactly one
escalation. -/
theorem single_shot_once_per_episode_witness :
    (run_loop argsS15 15 [((some false : Option Bool), 100),
        ((some false : Option Bool), 110), ((some false : Option Bool), 120)]
        { door_opened_time := none, door_closed_time := some 0
          last_door_state := some true, sms_sent := false
          sms_backoff_index := 0, last_sms_time := none }).2.countP
      (fun e => e.isOpenTooLong) = 1 := by
  have h := single_shot_once_per_episode argsS15 rfl 15 100 [110, 120]
    { door_opened_time := none, door_closed_time := some 0
      last_door_state := some true, sms_sent := false
      sms_backoff_index := 0, last_sms_time := none } rfl rfl
  simpa using h

/-- The whole status tick depends on the configuration only through the
backoff flag. -/
theorem handle_door_status_flags (dc : Bool) (wt now : Nat) (s : MonitorState)
    (a a' : Args) (h : a.no_sms_backoff = a'.no_sms_backoff) :
    handle_door_status dc a wt now s = handle_door_status dc a' wt now s := by
  unfold handle_door_status handle_door_open_too_long Args.sms_backoff
  rw [h]

/-- The loop depends on the configuration only through the backoff flag. -/
theorem run_loop_flags (a a' : Args) (h : a.no_sms_backoff = a'.no_sms_backoff)
    (wt : Nat) :
    ∀ (ticks : List (Option Bool × Nat)) (s : MonitorState),
      run_loop a wt ticks s = run_loop a' wt ticks s := by
  intro ticks
  induction ticks with
  | nil => intro s; rfl
  | cons pt rest ih =>
      intro s
      cases pt with
      | mk p t =>
          simp only [run_loop]
          have hl : loop_tick p a wt t s = loop_tick p a' wt t s := by
            cases p with
            | none => rfl
            | some dc => exact handle_door_status_flags dc wt t s a a' h
          rw [hl, ih]

/-- A run depends on the configuration only through the backoff flag and
the warning threshold. -/
theorem run_flags (a a' : Args) (h1 : a.no_sms_backoff = a'.no_sms_backoff)
    (h2 : a.open_too_long_seconds = a'.open_too_long_seconds)
    (stp : Option Bool × Nat) (ticks : List (Option Bool × Nat)) :
    run a stp ticks = run a' stp ticks := by
  unfold run
  dsimp only
  rw [h2, run_loop_flags a a' h1 a'.open_too_long_seconds ticks]

/-- C10 (confirmed): the evolution of `MonitorState` is independent of the
channel enable flags and of delivery outcomes: two runs over the same
samples and times, one with any setting of `sms_off`/`telegram_off` and any
delivery outcomes, the other with any other setting and outcomes, reach
exactly the same state (all six fields) — notification bookkeeping is
performed when dispatch is attempted and is never conditioned on the flags
or on a send result. -/
theorem channel_noninterference (a : Args) (b1 b2 b1' b2' : Bool)
    (out out' : Channel → Event → Bool) (stp : Option Bool × Nat)
    (ticks : List (Option Bool × Nat)) :
    (runD { a with sms_off := b1, telegram_off := b2 } out stp ticks).1 =
    (runD { a with sms_off := b1', telegram_off := b2' } out' stp ticks).1 := by
  show (run { a with sms_off := b1, telegram_off := b2 } stp ticks).1 =
    (run { a with sms_off := b1', telegram_off := b2' } stp ticks).1
  rw [run_flags { a with sms_off := b1, telegram_off := b2 }
    { a with sms_off := b1', telegram_off := b2' } rfl rfl stp ticks]

end DoorMon
